import Mathlib

/-!
Shallow embedding of `src/crypto_price_bot.py` (a Telegram bot that
periodically edits one channel message with crypto prices).

Modelling conventions:
- Python floats are idealised as exact rationals (`ℚ`); numeric strings in
  the Nobitex order book are modelled by their parsed rational values, and a
  body from which `response.json()` (or a required key / index) cannot be
  read is modelled by `Option`/`Except` failure alternatives.
- Each outbound call (HTTP GET, Telegram send/edit/get-chat/reply, timer
  arming) is recorded as an `Effect` in a trace; issuing a call records the
  effect even when the call then fails.
- Exceptions are modelled with `Except String`; a `try/except` block is a
  `match` on the `Except` value of its body, exactly where the source has
  one.
- The environment (HTTP responses, the Tehran wall clock, Telegram call
  outcomes) is passed in explicitly; the single piece of mutable state is
  the module-level `message_id` (`BotState`).
-/

namespace CryptoBot

/-- The civil time `datetime.now(pytz.timezone('Asia/Tehran'))` observed by a
tick, already expressed in the Asia/Tehran timezone. -/
structure Tm where
  year : Nat
  month : Nat
  day : Nat
  hour : Nat
  minute : Nat
  second : Nat
deriving DecidableEq

/-- The character for a decimal digit `d < 10`. -/
def digitChar (d : Nat) : Char := Char.ofNat (48 + d)

/-- Decimal digits of `n`, least significant first; `fuel ≥ n` suffices. -/
def natDigitsAux : Nat → Nat → List Char
  | 0, _ => []
  | _+1, 0 => []
  | fuel+1, n => digitChar (n % 10) :: natDigitsAux fuel (n / 10)

/-- Decimal representation of a natural number, most significant first. -/
def natString (n : Nat) : List Char :=
  if n = 0 then ['0'] else (natDigitsAux n n).reverse

/-- Walk a reversed digit list inserting `','` before every fourth digit
(counting consumed digits in `i`), as Python's `,` format flag does. -/
def groupRevAux : Nat → List Char → List Char
  | _, [] => []
  | i, c :: rest =>
    if i ≠ 0 ∧ i % 3 = 0 then ',' :: c :: groupRevAux (i+1) rest
    else c :: groupRevAux (i+1) rest

/-- Insert thousands separators into a digit list (most significant first). -/
def groupThousands (ds : List Char) : List Char :=
  (groupRevAux 0 ds.reverse).reverse

/-- Left-pad a character list with `'0'` to length `len`. -/
def padZeros (len : Nat) (s : List Char) : List Char :=
  List.replicate (len - s.length) '0' ++ s

/-- Round the fraction `n / d` (with `d > 0`) to the nearest integer,
ties to even — the rounding used by Python's fixed-point formatting. -/
def roundHalfEvenFrac (n : ℤ) (d : ℕ) : ℤ :=
  let f := Int.fdiv n d
  let r := Int.fmod n d
  if 2 * r < (d : ℤ) then f
  else if 2 * r > (d : ℤ) then f + 1
  else if f % 2 = 0 then f else f + 1

/-- `q · 10^decimals`, rounded half-to-even to an integer. -/
def scaledRound (q : ℚ) (decimals : ℕ) : ℤ :=
  roundHalfEvenFrac (q.num * 10 ^ decimals) q.den

/-- Python's `f"{q:,.Nf}"`: fixed-point with `decimals` fractional digits and
thousands separators in the integer part (float values idealised as `ℚ`). -/
def formatComma (q : ℚ) (decimals : ℕ) : String :=
  let scaled := scaledRound q decimals
  let sign := if scaled < 0 then "-" else ""
  let a := scaled.natAbs
  let intStr := String.mk (groupThousands (natString (a / 10 ^ decimals)))
  if decimals = 0 then sign ++ intStr
  else sign ++ intStr ++ "." ++ String.mk (padZeros decimals (natString (a % 10 ^ decimals)))

/-- Zero-padded decimal rendering of `n` to (at least) `len` digits. -/
def padNum (len : Nat) (n : Nat) : String := String.mk (padZeros len (natString n))

/-- `strftime("%Y-%m-%d %H:%M:%S")` on a civil time. -/
def strftimeYmdHMS (t : Tm) : String :=
  padNum 4 t.year ++ "-" ++ padNum 2 t.month ++ "-" ++ padNum 2 t.day ++ " "
    ++ padNum 2 t.hour ++ ":" ++ padNum 2 t.minute ++ ":" ++ padNum 2 t.second

/-- The `message_text` built by `update_price` (lines 146-151 of the source):
a fixed four-line block from the three USD prices and the USDT→IRR rate.
The computed Tehran timestamp is not interpolated, exactly as in the source. -/
def formatMessage (btc eth sol usdtIrr : ℚ) : String :=
  "💰 Bitcoin (BTC): $" ++ formatComma btc 2 ++ "\n"
    ++ "💎 Ethereum (ETH): $" ++ formatComma eth 2 ++ "\n"
    ++ "✨ Solana (SOL): $" ++ formatComma sol 2 ++ "\n"
    ++ "💵 Tether (USDT): " ++ formatComma usdtIrr 0 ++ " ریال"

/-- One outbound call of the program (HTTP GET, Telegram action, or timer
arming). Issuing a call records its effect even if the call then fails. -/
inductive Effect where
  | fetchMarket : Effect
  | fetchOrderBook : Effect
  | fetchExchangeRates : Effect
  | getChat (chatId : String) : Effect
  | sendMessage (chatId : String) (text : String) : Effect
  | editMessage (chatId : String) (messageId : ℤ) (text : String) : Effect
  | armTimer (interval : Nat) (first : Nat) : Effect
  | replyText (text : String) : Effect
deriving DecidableEq

/-- An HTTP response: status code plus the parsed JSON body, with `none`
when `response.json()` (or a required key of it) cannot be parsed. -/
structure HttpResp (α : Type) where
  status : Nat
  json : Option α
deriving DecidableEq

/-- Body of `GET /simple/price?ids=bitcoin,ethereum,solana,tether...`:
each field is `none` when its key is absent (a `KeyError` on access). -/
structure MarketBody where
  bitcoin : Option ℚ
  ethereum : Option ℚ
  solana : Option ℚ
  tether : Option ℚ
deriving DecidableEq

/-- Body of `GET /v2/orderbook/USDTIRT`: rows of numeric entries, prices
modelled by their parsed rational values. -/
structure OrderBook where
  bids : List (List ℚ)
  asks : List (List ℚ)
deriving DecidableEq

/-- Body of `GET /exchange_rates`: the `rates → usd → value` number, `none`
when the path is absent. -/
structure ExchangeRatesBody where
  usdValue : Option ℚ
deriving DecidableEq

/-- The module-level mutable state: `message_id`, `None` at startup. -/
structure BotState where
  message_id : Option ℤ
deriving DecidableEq

/-- Environment configuration (`TELEGRAM_CHANNEL_ID`). -/
structure Config where
  channelId : String
deriving DecidableEq

/-- The external world seen by one `update_price` tick: the two HTTP fetch
outcomes (`Except.error` = the request raised), the Tehran wall clock, and
the outcome of the Telegram edit call. -/
structure UpdateEnv where
  market : Except String (HttpResp MarketBody)
  orderbook : Except String (HttpResp OrderBook)
  nowTehran : Tm
  editResult : Except String Unit

/-- The external world seen by one `start` invocation: `get_chat` and
`send_message` outcomes (`Except.error` = the call raised; `send` returns
the new message id), plus the environment for the synchronous update. -/
structure StartEnv where
  chat : Except String Unit
  send : Except String ℤ
  upd : UpdateEnv

/-- `data['bitcoin']['usd']` … `data['tether']['usd']` (lines 134-137):
sequential key accesses, raising `KeyError` at the first absent key. -/
def parseQuotes (b : MarketBody) : Except String (ℚ × ℚ × ℚ × ℚ) :=
  match b.bitcoin with
  | none => .error "KeyError: bitcoin"
  | some btc =>
    match b.ethereum with
    | none => .error "KeyError: ethereum"
    | some eth =>
      match b.solana with
      | none => .error "KeyError: solana"
      | some sol =>
        match b.tether with
        | none => .error "KeyError: tether"
        | some usdt => .ok (btc, eth, sol, usdt)

/-- `rows[0][0]` with `IndexError` when either index is out of range. -/
def index00 (rows : List (List ℚ)) : Except String ℚ :=
  match rows with
  | (x :: _) :: _ => .ok x
  | _ => .error "IndexError"

/-- The `try` body of `get_usdt_irr_rate` (lines 98-110): on status 200 read
best bid and best ask and return their mean; on non-200 return the fallback
50000 (an ordinary return, not an exception). An `.error` anywhere models
the exception propagating to the `except` clause. -/
def usdt_try (ob : Except String (HttpResp OrderBook)) : Except String ℚ :=
  match ob with
  | .error e => .error e
  | .ok resp =>
    if resp.status = 200 then
      match resp.json with
      | none => .error "JSONDecodeError"
      | some book =>
        match index00 book.bids with
        | .error e => .error e
        | .ok best_bid =>
          match index00 book.asks with
          | .error e => .error e
          | .ok best_ask => .ok ((best_bid + best_ask) / 2)
    else
      .ok 50000

/-- `get_usdt_irr_rate` (lines 96-113): the `try` body with every exception
caught and replaced by the fallback rate 50000. -/
def get_usdt_irr_rate (ob : Except String (HttpResp OrderBook)) : ℚ :=
  match usdt_try ob with
  | .ok v => v
  | .error _ => 50000

/-- The `try` body of `get_exchange_rate` (lines 79-91): on status 200 read
`rates.usd.value` and scale by 50000; on non-200 return the fallback. -/
def exchange_try (er : Except String (HttpResp ExchangeRatesBody)) : Except String ℚ :=
  match er with
  | .error e => .error e
  | .ok resp =>
    if resp.status = 200 then
      match resp.json with
      | none => .error "JSONDecodeError"
      | some body =>
        match body.usdValue with
        | none => .error "KeyError"
        | some v => .ok (v * 50000)
    else
      .ok 50000

/-- `get_exchange_rate` (lines 77-94): result value paired with the trace of
the one GET it issues. No other function of the source ever calls it. -/
def get_exchange_rate (er : Except String (HttpResp ExchangeRatesBody)) : ℚ × List Effect :=
  (match exchange_try er with
   | .ok v => v
   | .error _ => 50000,
   [Effect.fetchExchangeRates])

/-- Result of the `try` body of `update_price`: effects issued so far, the
computed Tehran timestamp string (when reached), and `.error` when an
exception was raised inside the body. -/
structure TickTry where
  effects : List Effect
  computedTime : Option String
  outcome : Except String Unit

/-- The `try` body of `update_price` (lines 121-159): fetch the market
quotes, abort on non-200, parse the four quotes, get the USDT/IRR rate,
compute the Tehran timestamp, format, and attempt the edit. -/
def update_price_attempt (cfg : Config) (env : UpdateEnv) (mid : ℤ) : TickTry :=
  match env.market with
  | .error e => ⟨[Effect.fetchMarket], none, .error e⟩
  | .ok resp =>
    if resp.status = 200 then
      match resp.json with
      | none => ⟨[Effect.fetchMarket], none, .error "JSONDecodeError"⟩
      | some body =>
        match parseQuotes body with
        | .error e => ⟨[Effect.fetchMarket], none, .error e⟩
        | .ok (btc, eth, sol, _usdt_usd) =>
          let rate := get_usdt_irr_rate env.orderbook
          let current_time := strftimeYmdHMS env.nowTehran
          let text := formatMessage btc eth sol rate
          let effs := [Effect.fetchMarket, Effect.fetchOrderBook,
                       Effect.editMessage cfg.channelId mid text]
          match env.editResult with
          | .ok _ => ⟨effs, some current_time, .ok ()⟩
          | .error e => ⟨effs, some current_time, .error e⟩
    else
      ⟨[Effect.fetchMarket], none, .ok ()⟩

/-- Outcome of one `update_price` tick: the state after it, the trace of
effects, the exception propagating out of the coroutine (if any), and the
Tehran timestamp string computed inside it (when reached). -/
structure TickResult where
  state : BotState
  effects : List Effect
  raised : Option String
  computedTime : Option String
deriving DecidableEq

/-- `update_price` (lines 115-162): return at once when `message_id` is
falsy (`None` or `0` — Python's `if not message_id`), otherwise run the
`try` body with every exception caught and logged (lines 160-162), so
nothing propagates and the state is never written. -/
def update_price (cfg : Config) (env : UpdateEnv) (st : BotState) : TickResult :=
  match st.message_id with
  | none => ⟨st, [], none, none⟩
  | some mid =>
    if mid = 0 then ⟨st, [], none, none⟩
    else
      let t := update_price_attempt cfg env mid
      ⟨st, t.effects, none, t.computedTime⟩

/-- The placeholder text sent by `start` (line 50). -/
def startText : String := "Starting price updates..."

/-- The error reply built in `start`'s `except` block (lines 67-74). -/
def errorMessage (e chId : String) : String :=
  "Error starting the bot. Please check:\n1. The bot is an admin in the channel\n2. The bot has permission to send and edit messages\n3. The channel ID is correct\nError details: "
    ++ e ++ "\nChannel ID used: " ++ chId

/-- Outcome of one `start` invocation. -/
structure StartResult where
  state : BotState
  effects : List Effect
  raised : Option String

/-- `start` (lines 35-75): get chat info, send the placeholder, store its
message id, arm the 300-second repeating timer with an immediate first
firing, and run one synchronous update; any exception lands in the
`except` block, which replies to the triggering user and returns. -/
def start (cfg : Config) (env : StartEnv) (st : BotState) : StartResult :=
  match env.chat with
  | .error e =>
    ⟨st, [Effect.getChat cfg.channelId,
          Effect.replyText (errorMessage e cfg.channelId)], none⟩
  | .ok _ =>
    match env.send with
    | .error e =>
      ⟨st, [Effect.getChat cfg.channelId,
            Effect.sendMessage cfg.channelId startText,
            Effect.replyText (errorMessage e cfg.channelId)], none⟩
    | .ok mid =>
      let st1 : BotState := ⟨some mid⟩
      let tick := update_price cfg env.upd st1
      ⟨tick.state,
       [Effect.getChat cfg.channelId,
        Effect.sendMessage cfg.channelId startText,
        Effect.armTimer 300 0] ++ tick.effects,
       none⟩

/-- The program's entry points: `main` registers `start` as the only command
handler, and `start` arms a repeating timer whose callback is
`update_price`. These are the only code paths the scheduler can run. -/
inductive Handler where
  | startCommand : Handler
  | timerTick : Handler

/-- The effect trace of one dispatch of a handler. -/
def handlerEffects (cfg : Config) (h : Handler) (env : StartEnv) (st : BotState) : List Effect :=
  match h with
  | .startCommand => (start cfg env st).effects
  | .timerTick => (update_price cfg env.upd st).effects

/-- Success of the market-quotes fetch as `update_price` consumes it:
request did not raise, status 200, body parses, all four quotes present. -/
def marketFetchOk : Except String (HttpResp MarketBody) → Bool
  | .error _ => false
  | .ok resp =>
    resp.status == 200 &&
      (match resp.json with
       | none => false
       | some b =>
         (match parseQuotes b with
          | .ok _ => true
          | .error _ => false))

/-- Failure of the order-book fetch as `get_usdt_irr_rate` sees it: the
request raised, or non-200 status, or the 200 body cannot be parsed. -/
def orderBookFetchFailed (ob : Except String (HttpResp OrderBook)) : Prop :=
  (∃ e, ob = .error e)
    ∨ (∃ resp, ob = .ok resp ∧ resp.status ≠ 200)
    ∨ (∃ resp, ob = .ok resp ∧ resp.json = none)

/-- `matchesAt pat l`: `pat` is a prefix of `l`. -/
def matchesAt : List Char → List Char → Bool
  | [], _ => true
  | _ :: _, [] => false
  | c :: cs, d :: ds => c == d && matchesAt cs ds

/-- `pat` occurs contiguously inside `s`. -/
def occursIn (pat s : List Char) : Bool :=
  (List.range (s.length + 1)).any fun i => matchesAt pat (List.drop i s)

/-! ### Concrete fixtures (used by witnesses and counterexamples) -/

/-- A concrete configuration. -/
def cfg0 : Config := ⟨"@pricechannel"⟩

/-- A concrete Tehran civil time. -/
def tm0 : Tm := ⟨2024, 5, 1, 12, 30, 45⟩

/-- The market body of spec Scenario 1. -/
def body0 : MarketBody := ⟨some 65000, some 3200, some 150, some 1⟩

/-- The order book of spec Scenario 1: bids `[["58400"]]`, asks `[["58600"]]`. -/
def book0 : OrderBook := ⟨[[58400]], [[58600]]⟩

/-- A successful order-book fetch carrying `book0`. -/
def obOk : Except String (HttpResp OrderBook) := .ok ⟨200, some book0⟩

/-- An order-book request that raises a network exception. -/
def obErr : Except String (HttpResp OrderBook) := .error "ConnectionError"

/-- A tick environment whose market fetch returns HTTP 503. -/
def env503 : UpdateEnv := ⟨.ok ⟨503, none⟩, obOk, tm0, .ok ()⟩

/-- A fully successful tick environment (Scenario 1 quotes, failing
order-book fetch so the fallback rate is used). -/
def envOkFall : UpdateEnv := ⟨.ok ⟨200, some body0⟩, obErr, tm0, .ok ()⟩

/-- A fully successful tick environment (Scenario 1 quotes and order book). -/
def envOk : UpdateEnv := ⟨.ok ⟨200, some body0⟩, obOk, tm0, .ok ()⟩

/-- A state holding a tracked message with id 1. -/
def st1 : BotState := ⟨some 1⟩

/-- The state at startup: no tracked message. -/
def stNone : BotState := ⟨none⟩

/-- A bootstrap environment whose `get_chat` call raises. -/
def senvChatFail : StartEnv := ⟨.error "Forbidden: bot is not a member", .ok 7, envOk⟩

/-- A bootstrap environment whose placeholder send raises. -/
def senvSendFail : StartEnv := ⟨.ok (), .error "Forbidden: not enough rights", envOk⟩

/-- A bootstrap environment whose send returns message id 0. -/
def senvZero : StartEnv := ⟨.ok (), .ok 0, envOk⟩

/-! ### Helper lemmas -/

theorem usdt_ok_mean (resp : HttpResp OrderBook) (book : OrderBook) (B A : ℚ)
    (bRow aRow : List ℚ) (bRest aRest : List (List ℚ))
    (hst : resp.status = 200) (hjson : resp.json = some book)
    (hbids : book.bids = (B :: bRow) :: bRest) (hasks : book.asks = (A :: aRow) :: aRest) :
    get_usdt_irr_rate (.ok resp) = (B + A) / 2 := by
  simp [get_usdt_irr_rate, usdt_try, hst, hjson, hbids, hasks, index00]

theorem usdt_failed_fallback (ob : Except String (HttpResp OrderBook))
    (h : orderBookFetchFailed ob) : get_usdt_irr_rate ob = 50000 := by
  rcases h with ⟨e, he⟩ | ⟨resp, hob, hst⟩ | ⟨resp, hob, hj⟩
  · simp [he, get_usdt_irr_rate, usdt_try]
  · subst hob
    simp [get_usdt_irr_rate, usdt_try, hst]
  · subst hob
    by_cases hst : resp.status = 200
    · simp [get_usdt_irr_rate, usdt_try, hst, hj]
    · simp [get_usdt_irr_rate, usdt_try, hst]

theorem update_price_state_raised (cfg : Config) (env : UpdateEnv) (st : BotState) :
    (update_price cfg env st).state = st ∧ (update_price cfg env st).raised = none := by
  cases hmid : st.message_id with
  | none => simp [update_price, hmid]
  | some mid =>
    by_cases hz : mid = 0
    · simp [update_price, hmid, hz]
    · simp [update_price, hmid, hz]

/-! ### Claim theorems -/

/-- C3: for every order-book response with HTTP status 200 whose parsed body
has a best bid `B` and a best ask `A`, `get_usdt_irr_rate` returns exactly
`(B + A) / 2`. -/
theorem orderbook_success_returns_mean (ob : Except String (HttpResp OrderBook))
    (resp : HttpResp OrderBook) (book : OrderBook) (B A : ℚ)
    (bRow aRow : List ℚ) (bRest aRest : List (List ℚ))
    (hob : ob = .ok resp) (hst : resp.status = 200) (hjson : resp.json = some book)
    (hbids : book.bids = (B :: bRow) :: bRest) (hasks : book.asks = (A :: aRow) :: aRest) :
    get_usdt_irr_rate ob = (B + A) / 2 := by
  subst hob
  exact usdt_ok_mean resp book B A bRow aRow bRest aRest hst hjson hbids hasks

theorem orderbook_success_returns_mean_witness :
    get_usdt_irr_rate obOk = (58400 + 58600) / 2 :=
  orderbook_success_returns_mean obOk ⟨200, some book0⟩ book0 58400 58600 [] [] [] []
    rfl rfl rfl rfl rfl

/-- C2: for every failed order-book fetch (the request raised, non-200
status, or an unreadable 200 body), `get_usdt_irr_rate` returns exactly
50000, and a tick using such an environment still neither raises nor
changes the tracked message state. -/
theorem orderbook_failure_returns_fallback (ob : Except String (HttpResp OrderBook))
    (h : orderBookFetchFailed ob) :
    get_usdt_irr_rate ob = 50000
    ∧ ∀ (cfg : Config) (env : UpdateEnv) (st : BotState), env.orderbook = ob →
        (update_price cfg env st).raised = none ∧ (update_price cfg env st).state = st := by
  refine ⟨usdt_failed_fallback ob h, ?_⟩
  intro cfg env st _
  exact ⟨(update_price_state_raised cfg env st).2, (update_price_state_raised cfg env st).1⟩

theorem orderbook_failure_returns_fallback_witness :
    get_usdt_irr_rate obErr = 50000
    ∧ ∀ (cfg : Config) (env : UpdateEnv) (st : BotState), env.orderbook = obErr →
        (update_price cfg env st).raised = none ∧ (update_price cfg env st).state = st :=
  orderbook_failure_returns_fallback obErr (Or.inl ⟨"ConnectionError", rfl⟩)

/-- C4: when no message identifier has been assigned, a tick is a complete
no-op: no effect (no HTTP fetch, no edit) is issued, the state is
unchanged, and nothing is raised. -/
theorem tick_noop_without_reference (cfg : Config) (env : UpdateEnv) (st : BotState)
    (h : st.message_id = none) :
    update_price cfg env st = ⟨st, [], none, none⟩ := by
  simp [update_price, h]

theorem tick_noop_without_reference_witness :
    update_price cfg0 envOk stNone = ⟨stNone, [], none, none⟩ :=
  tick_noop_without_reference cfg0 envOk stNone rfl

/-- C9: the tracked message reference is unchanged by every tick, whatever
its outcome, and `start` writes it only with the id returned by the
placeholder send (otherwise it too leaves the state unchanged). -/
theorem tick_preserves_message_id (cfg : Config) (env : UpdateEnv) (st : BotState)
    (senv : StartEnv) :
    (update_price cfg env st).state = st
    ∧ ((start cfg senv st).state = st
        ∨ ∃ mid, senv.send = .ok mid ∧ (start cfg senv st).state = ⟨some mid⟩) := by
  refine ⟨(update_price_state_raised cfg env st).1, ?_⟩
  cases hc : senv.chat with
  | error e => left; simp [start, hc]
  | ok u =>
    cases hs : senv.send with
    | error e => left; simp [start, hc, hs]
    | ok mid =>
      right
      refine ⟨mid, rfl, ?_⟩
      simp [start, hc, hs, (update_price_state_raised cfg senv.upd ⟨some mid⟩).1]

theorem attempt_effects_of_failed_market (cfg : Config) (env : UpdateEnv) (mid : ℤ)
    (h : marketFetchOk env.market = false) :
    (update_price_attempt cfg env mid).effects = [Effect.fetchMarket]
    ∧ (update_price_attempt cfg env mid).computedTime = none := by
  cases hm : env.market with
  | error e => simp [update_price_attempt, hm]
  | ok resp =>
    by_cases hs : resp.status = 200
    · cases hj : resp.json with
      | none => simp [update_price_attempt, hm, hs, hj]
      | some body =>
        cases hq : parseQuotes body with
        | error e => simp [update_price_attempt, hm, hs, hj, hq]
        | ok q =>
          exfalso
          rw [hm] at h
          simp [marketFetchOk, hs, hj, hq] at h
    · simp [update_price_attempt, hm, hs]

theorem update_price_success_shape (cfg : Config) (env : UpdateEnv) (st : BotState)
    (mid : ℤ) (resp : HttpResp MarketBody) (body : MarketBody) (btc eth sol usdt : ℚ)
    (hmid : st.message_id = some mid) (hz : mid ≠ 0)
    (hm : env.market = .ok resp) (hs : resp.status = 200) (hj : resp.json = some body)
    (hq : parseQuotes body = .ok (btc, eth, sol, usdt)) :
    update_price cfg env st =
      ⟨st, [Effect.fetchMarket, Effect.fetchOrderBook,
            Effect.editMessage cfg.channelId mid
              (formatMessage btc eth sol (get_usdt_irr_rate env.orderbook))],
       none, some (strftimeYmdHMS env.nowTehran)⟩ := by
  cases he : env.editResult with
  | ok u => simp [update_price, hmid, hz, update_price_attempt, hm, hs, hj, hq, he]
  | error e => simp [update_price, hmid, hz, update_price_attempt, hm, hs, hj, hq, he]

/-- C1: whenever the market-quotes fetch fails (request raised, non-200
status, or a body from which the four quotes cannot be parsed), the tick
performs no edit call, leaves the tracked message state unchanged, and
propagates no exception. -/
theorem market_failure_tick_aborts (cfg : Config) (env : UpdateEnv) (st : BotState)
    (h : marketFetchOk env.market = false) :
    (∀ c m t, Effect.editMessage c m t ∉ (update_price cfg env st).effects)
    ∧ (update_price cfg env st).state = st
    ∧ (update_price cfg env st).raised = none := by
  refine ⟨?_, (update_price_state_raised cfg env st).1, (update_price_state_raised cfg env st).2⟩
  intro c m t
  cases hmid : st.message_id with
  | none => simp [update_price, hmid]
  | some mid =>
    by_cases hz : mid = 0
    · simp [update_price, hmid, hz]
    · have ha := attempt_effects_of_failed_market cfg env mid h
      simp [update_price, hmid, hz, ha.1]

theorem market_failure_tick_aborts_witness :
    (∀ c m t, Effect.editMessage c m t ∉ (update_price cfg0 env503 st1).effects)
    ∧ (update_price cfg0 env503 st1).state = st1
    ∧ (update_price cfg0 env503 st1).raised = none :=
  market_failure_tick_aborts cfg0 env503 st1 (by decide)

/-- C5: every successful tick edits the message to the fixed four-line block
built from the four fetched values (two-decimal USD prices, zero-decimal
IRR rate, thousands separators), and on the Scenario 1 inputs (btc 65000,
eth 3200, sol 150, order book bid 58400 / ask 58600) the text is exactly
the block showing $65,000.00, $3,200.00, $150.00 and 58,500 ریال. -/
theorem successful_tick_text (cfg : Config) (env : UpdateEnv) (st : BotState)
    (mid : ℤ) (resp : HttpResp MarketBody) (body : MarketBody) (btc eth sol usdt : ℚ)
    (hmid : st.message_id = some mid) (hz : mid ≠ 0)
    (hm : env.market = .ok resp) (hs : resp.status = 200) (hj : resp.json = some body)
    (hq : parseQuotes body = .ok (btc, eth, sol, usdt)) :
    Effect.editMessage cfg.channelId mid
        (formatMessage btc eth sol (get_usdt_irr_rate env.orderbook))
      ∈ (update_price cfg env st).effects
    ∧ formatMessage 65000 3200 150 (get_usdt_irr_rate obOk)
        = "💰 Bitcoin (BTC): $65,000.00\n💎 Ethereum (ETH): $3,200.00\n✨ Solana (SOL): $150.00\n💵 Tether (USDT): 58,500 ریال" := by
  constructor
  · rw [update_price_success_shape cfg env st mid resp body btc eth sol usdt hmid hz hm hs hj hq]
    simp
  · have h1 := usdt_ok_mean ⟨200, some book0⟩ book0 58400 58600 [] [] [] [] rfl rfl rfl rfl
    have hr : get_usdt_irr_rate obOk = 58500 := by
      rw [show obOk = Except.ok (⟨200, some book0⟩ : HttpResp OrderBook) from rfl, h1]
      norm_num
    rw [hr]
    decide

theorem successful_tick_text_witness :
    Effect.editMessage cfg0.channelId 1
        (formatMessage 65000 3200 150 (get_usdt_irr_rate envOk.orderbook))
      ∈ (update_price cfg0 envOk st1).effects
    ∧ formatMessage 65000 3200 150 (get_usdt_irr_rate obOk)
        = "💰 Bitcoin (BTC): $65,000.00\n💎 Ethereum (ETH): $3,200.00\n✨ Solana (SOL): $150.00\n💵 Tether (USDT): 58,500 ریال" :=
  successful_tick_text cfg0 envOk st1 1 ⟨200, some body0⟩ body0 65000 3200 150 1
    rfl (by decide) rfl rfl rfl rfl

theorem matchesAt_self_append (pat rest : List Char) :
    matchesAt pat (pat ++ rest) = true := by
  induction pat with
  | nil => rfl
  | cons c cs ih => simp [matchesAt, ih]

theorem occursIn_append_mid (a pat b : List Char) :
    occursIn pat (a ++ pat ++ b) = true := by
  unfold occursIn
  rw [List.any_eq_true]
  refine ⟨a.length, ?_, ?_⟩
  · rw [List.mem_range]
    simp [List.length_append]
    omega
  · rw [List.append_assoc, List.drop_left]
    exact matchesAt_self_append pat b

theorem errorMessage_carries_details (e ch : String) :
    occursIn e.data (errorMessage e ch).data = true
    ∧ occursIn ch.data (errorMessage e ch).data = true := by
  unfold errorMessage
  rw [String.data_append, String.data_append, String.data_append]
  constructor
  · rw [List.append_assoc]
    exact occursIn_append_mid _ e.data _
  · have h := occursIn_append_mid
      (("Error starting the bot. Please check:\n1. The bot is an admin in the channel\n2. The bot has permission to send and edit messages\n3. The channel ID is correct\nError details: " : String).data
        ++ e.data ++ ("\nChannel ID used: " : String).data) ch.data []
    rwa [List.append_nil] at h

/-- C8: when the destination-metadata check or the placeholder send raises,
`start` replies to the triggering user with the remediation text carrying
the raw error detail and the configured channel id, arms no timer, performs
no synchronous update (no market fetch, no edit), leaves the state
unchanged, and raises nothing (so a retry trigger is accepted). -/
theorem bootstrap_failure_reports_and_aborts (cfg : Config) (env : StartEnv) (st : BotState)
    (h : (∃ e, env.chat = .error e) ∨ (env.chat = .ok () ∧ ∃ e, env.send = .error e)) :
    (start cfg env st).state = st
    ∧ (start cfg env st).raised = none
    ∧ (∃ e, Effect.replyText (errorMessage e cfg.channelId) ∈ (start cfg env st).effects
        ∧ occursIn e.data (errorMessage e cfg.channelId).data = true
        ∧ occursIn cfg.channelId.data (errorMessage e cfg.channelId).data = true)
    ∧ (∀ i f, Effect.armTimer i f ∉ (start cfg env st).effects)
    ∧ Effect.fetchMarket ∉ (start cfg env st).effects
    ∧ (∀ c m t, Effect.editMessage c m t ∉ (start cfg env st).effects) := by
  rcases h with ⟨e, he⟩ | ⟨hok, e, he⟩
  · refine ⟨by simp [start, he], by simp [start, he], ⟨e, ?_, (errorMessage_carries_details e cfg.channelId).1, (errorMessage_carries_details e cfg.channelId).2⟩, ?_, ?_, ?_⟩
    · simp [start, he]
    · intro i f; simp [start, he]
    · simp [start, he]
    · intro c m t; simp [start, he]
  · refine ⟨by simp [start, hok, he], by simp [start, hok, he], ⟨e, ?_, (errorMessage_carries_details e cfg.channelId).1, (errorMessage_carries_details e cfg.channelId).2⟩, ?_, ?_, ?_⟩
    · simp [start, hok, he]
    · intro i f; simp [start, hok, he]
    · simp [start, hok, he]
    · intro c m t; simp [start, hok, he]

theorem bootstrap_failure_reports_and_aborts_witness :
    (start cfg0 senvSendFail stNone).state = stNone
    ∧ (start cfg0 senvSendFail stNone).raised = none
    ∧ (∃ e, Effect.replyText (errorMessage e cfg0.channelId) ∈ (start cfg0 senvSendFail stNone).effects
        ∧ occursIn e.data (errorMessage e cfg0.channelId).data = true
        ∧ occursIn cfg0.channelId.data (errorMessage e cfg0.channelId).data = true)
    ∧ (∀ i f, Effect.armTimer i f ∉ (start cfg0 senvSendFail stNone).effects)
    ∧ Effect.fetchMarket ∉ (start cfg0 senvSendFail stNone).effects
    ∧ (∀ c m t, Effect.editMessage c m t ∉ (start cfg0 senvSendFail stNone).effects) :=
  bootstrap_failure_reports_and_aborts cfg0 senvSendFail stNone
    (Or.inr ⟨rfl, "Forbidden: not enough rights", rfl⟩)

/-- C10: the guard `if not message_id` is a Python truthiness test, so a
captured message id equal to 0 makes every later tick no-op even though
Bootstrap did send the placeholder and store the id: after a `start` whose
send returns id 0, the state holds `some 0` and every tick on it issues no
effect at all. -/
theorem zero_message_id_disables_ticks (cfg : Config) (env : StartEnv) (st : BotState)
    (hchat : env.chat = .ok ()) (hsend : env.send = .ok 0) :
    (start cfg env st).state = ⟨some 0⟩
    ∧ Effect.sendMessage cfg.channelId startText ∈ (start cfg env st).effects
    ∧ (∀ (uenv : UpdateEnv) (st' : BotState), st'.message_id = some 0 →
        update_price cfg uenv st' = ⟨st', [], none, none⟩) := by
  have hnoop : ∀ (uenv : UpdateEnv) (st' : BotState), st'.message_id = some 0 →
      update_price cfg uenv st' = ⟨st', [], none, none⟩ := by
    intro uenv st' h
    simp [update_price, h]
  refine ⟨?_, ?_, hnoop⟩
  · simp [start, hchat, hsend, hnoop env.upd ⟨some 0⟩ rfl]
  · simp [start, hchat, hsend]

theorem zero_message_id_disables_ticks_witness :
    (start cfg0 senvZero stNone).state = ⟨some 0⟩
    ∧ Effect.sendMessage cfg0.channelId startText ∈ (start cfg0 senvZero stNone).effects
    ∧ (∀ (uenv : UpdateEnv) (st' : BotState), st'.message_id = some 0 →
        update_price cfg0 uenv st' = ⟨st', [], none, none⟩) :=
  zero_message_id_disables_ticks cfg0 senvZero stNone rfl rfl

theorem digitChar_ne_dash {d : Nat} (hd : d < 10) : digitChar d ≠ '-' := by
  interval_cases d <;> decide

theorem mem_natDigitsAux {c : Char} : ∀ fuel n, c ∈ natDigitsAux fuel n → c ≠ '-' := by
  intro fuel
  induction fuel with
  | zero => intro n h; exact absurd h (by simp [natDigitsAux])
  | succ f ih =>
    intro n h
    match n, h with
    | 0, h => exact absurd h (by simp [natDigitsAux])
    | (m+1), h =>
      simp only [natDigitsAux] at h
      rcases List.mem_cons.mp h with h1 | h2
      · rw [h1]; exact digitChar_ne_dash (Nat.mod_lt _ (by norm_num))
      · exact ih _ h2

theorem mem_natString {c : Char} (n : Nat) (h : c ∈ natString n) : c ≠ '-' := by
  unfold natString at h
  by_cases h0 : n = 0
  · rw [if_pos h0] at h
    rw [List.mem_singleton.mp h]
    decide
  · rw [if_neg h0] at h
    exact mem_natDigitsAux n n (List.mem_reverse.mp h)

theorem mem_groupRevAux {c : Char} : ∀ (l : List Char) (i : Nat),
    c ∈ groupRevAux i l → c ∈ l ∨ c = ',' := by
  intro l
  induction l with
  | nil => intro i h; exact absurd h (by simp [groupRevAux])
  | cons d ds ih =>
    intro i h
    simp only [groupRevAux] at h
    by_cases hcond : i ≠ 0 ∧ i % 3 = 0
    · rw [if_pos hcond] at h
      rcases List.mem_cons.mp h with h1 | h2
      · right; exact h1
      · rcases List.mem_cons.mp h2 with h3 | h4
        · left; rw [h3]; exact List.mem_cons_self d ds
        · rcases ih (i+1) h4 with h5 | h6
          · left; exact List.mem_cons_of_mem d h5
          · right; exact h6
    · rw [if_neg hcond] at h
      rcases List.mem_cons.mp h with h1 | h2
      · left; rw [h1]; exact List.mem_cons_self d ds
      · rcases ih (i+1) h2 with h5 | h6
        · left; exact List.mem_cons_of_mem d h5
        · right; exact h6

theorem mem_groupThousands {c : Char} {ds : List Char} (h : c ∈ groupThousands ds) :
    c ∈ ds ∨ c = ',' := by
  unfold groupThousands at h
  rcases mem_groupRevAux _ 0 (List.mem_reverse.mp h) with h1 | h2
  · left; exact List.mem_reverse.mp h1
  · right; exact h2

theorem mem_padZeros {c : Char} {len : Nat} {s : List Char} (h : c ∈ padZeros len s) :
    c = '0' ∨ c ∈ s := by
  unfold padZeros at h
  rcases List.mem_append.mp h with h1 | h2
  · left; exact List.eq_of_mem_replicate h1
  · right; exact h2

theorem scaledRound_nonneg (q : ℚ) (dec : ℕ) (hq : 0 ≤ q) : 0 ≤ scaledRound q dec := by
  have hn : (0:ℤ) ≤ q.num * 10 ^ dec :=
    mul_nonneg (Rat.num_nonneg.mpr hq) (by positivity)
  have hf : (0:ℤ) ≤ Int.fdiv (q.num * 10 ^ dec) q.den := Int.fdiv_nonneg hn (by positivity)
  simp only [scaledRound, roundHalfEvenFrac]
  split_ifs <;> omega

theorem mem_formatComma_ne_dash (q : ℚ) (dec : ℕ) (hq : 0 ≤ q) :
    ∀ c ∈ (formatComma q dec).data, c ≠ '-' := by
  intro c hc
  have hs : ¬ (scaledRound q dec < 0) := not_lt.mpr (scaledRound_nonneg q dec hq)
  simp only [formatComma] at hc
  rw [if_neg hs] at hc
  by_cases hd : dec = 0
  · rw [if_pos hd] at hc
    rw [String.data_append] at hc
    rcases List.mem_append.mp hc with h | h
    · rw [show ("" : String).data = [] from rfl] at h
      exact absurd h (List.not_mem_nil c)
    · have h' : c ∈ groupThousands (natString ((scaledRound q dec).natAbs / 10 ^ dec)) := h
      rcases mem_groupThousands h' with h2 | h2
      · exact mem_natString _ h2
      · rw [h2]; decide
  · rw [if_neg hd] at hc
    rw [String.data_append, String.data_append, String.data_append] at hc
    rcases List.mem_append.mp hc with h | h
    · rcases List.mem_append.mp h with h | h
      · rcases List.mem_append.mp h with h | h
        · rw [show ("" : String).data = [] from rfl] at h
          exact absurd h (List.not_mem_nil c)
        · have h' : c ∈ groupThousands (natString ((scaledRound q dec).natAbs / 10 ^ dec)) := h
          rcases mem_groupThousands h' with h2 | h2
          · exact mem_natString _ h2
          · rw [h2]; decide
      · rw [show ("." : String).data = ['.'] from rfl] at h
        rw [List.mem_singleton.mp h]; decide
    · have h' : c ∈ padZeros dec (natString ((scaledRound q dec).natAbs % 10 ^ dec)) := h
      rcases mem_padZeros h' with h2 | h2
      · rw [h2]; decide
      · exact mem_natString _ h2

theorem dash_not_mem_formatMessage (btc eth sol rate : ℚ)
    (h1 : 0 ≤ btc) (h2 : 0 ≤ eth) (h3 : 0 ≤ sol) (h4 : 0 ≤ rate) :
    '-' ∉ (formatMessage btc eth sol rate).data := by
  intro hmem
  unfold formatMessage at hmem
  simp only [String.data_append, List.mem_append] at hmem
  rcases hmem with ((((((((((h|h)|h)|h)|h)|h)|h)|h)|h)|h)|h)|h
  all_goals first
    | exact absurd h (by decide)
    | exact mem_formatComma_ne_dash btc 2 h1 '-' h rfl
    | exact mem_formatComma_ne_dash eth 2 h2 '-' h rfl
    | exact mem_formatComma_ne_dash sol 2 h3 '-' h rfl
    | exact mem_formatComma_ne_dash rate 0 h4 '-' h rfl

theorem dash_mem_strftime (t : Tm) : '-' ∈ (strftimeYmdHMS t).data := by
  unfold strftimeYmdHMS
  simp only [String.data_append, List.mem_append]
  refine Or.inl (Or.inl (Or.inl (Or.inl (Or.inl (Or.inl (Or.inl (Or.inl (Or.inl (Or.inr ?_)))))))))
  decide

theorem matchesAt_subset : ∀ (pat l : List Char), matchesAt pat l = true → ∀ c ∈ pat, c ∈ l := by
  intro pat
  induction pat with
  | nil => intro l _ c hc; exact absurd hc (List.not_mem_nil c)
  | cons p ps ih =>
    intro l h c hc
    cases l with
    | nil => simp [matchesAt] at h
    | cons d ds =>
      rw [matchesAt, Bool.and_eq_true] at h
      rcases List.mem_cons.mp hc with h1 | h2
      · rw [h1, beq_iff_eq.mp h.1]
        exact List.mem_cons_self d ds
      · exact List.mem_cons_of_mem d (ih ds h.2 c h2)

theorem occursIn_subset {pat s : List Char} (h : occursIn pat s = true) :
    ∀ c ∈ pat, c ∈ s := by
  unfold occursIn at h
  rw [List.any_eq_true] at h
  obtain ⟨i, _, hm⟩ := h
  intro c hc
  exact List.drop_subset i s (matchesAt_subset pat (s.drop i) hm c hc)

theorem attempt_time_invariant (cfg : Config) (m : Except String (HttpResp MarketBody))
    (ob : Except String (HttpResp OrderBook)) (t t' : Tm) (ed : Except String Unit) (mid : ℤ) :
    (update_price_attempt cfg ⟨m, ob, t', ed⟩ mid).effects
      = (update_price_attempt cfg ⟨m, ob, t, ed⟩ mid).effects := by
  cases m with
  | error e => rfl
  | ok resp =>
    rcases resp with ⟨stat, js⟩
    by_cases hs : stat = 200
    · cases js with
      | none => simp [update_price_attempt, hs]
      | some body =>
        cases hq : parseQuotes body with
        | error e => simp [update_price_attempt, hs, hq]
        | ok q =>
          obtain ⟨b, e2, s2, u⟩ := q
          cases ed with
          | ok u2 => simp [update_price_attempt, hs, hq]
          | error e3 => simp [update_price_attempt, hs, hq]
    · simp [update_price_attempt, hs]

theorem update_price_time_invariant (cfg : Config) (env : UpdateEnv) (t' : Tm) (st : BotState) :
    (update_price cfg {env with nowTehran := t'} st).effects
      = (update_price cfg env st).effects := by
  rcases env with ⟨m, ob, t, ed⟩
  cases hmid : st.message_id with
  | none => simp [update_price, hmid]
  | some mid =>
    by_cases hz : mid = 0
    · simp [update_price, hmid, hz]
    · simp [update_price, hmid, hz, attempt_time_invariant cfg m ob t t' ed mid]

/-- C6: on every successful tick the Tehran timestamp is computed and
formatted as YYYY-MM-DD HH:MM:SS, yet the emitted text never contains that
timestamp string (for the nonnegative values prices take) and the tick's
effects do not depend on the clock at all. -/
theorem timestamp_computed_but_unused (cfg : Config) (env : UpdateEnv) (st : BotState)
    (mid : ℤ) (resp : HttpResp MarketBody) (body : MarketBody) (btc eth sol usdt : ℚ)
    (hmid : st.message_id = some mid) (hz : mid ≠ 0)
    (hm : env.market = .ok resp) (hs : resp.status = 200) (hj : resp.json = some body)
    (hq : parseQuotes body = .ok (btc, eth, sol, usdt))
    (h1 : 0 ≤ btc) (h2 : 0 ≤ eth) (h3 : 0 ≤ sol)
    (h4 : 0 ≤ get_usdt_irr_rate env.orderbook) :
    (update_price cfg env st).computedTime = some (strftimeYmdHMS env.nowTehran)
    ∧ (∀ t', (update_price cfg {env with nowTehran := t'} st).effects
          = (update_price cfg env st).effects)
    ∧ (∀ text, Effect.editMessage cfg.channelId mid text ∈ (update_price cfg env st).effects →
        occursIn (strftimeYmdHMS env.nowTehran).data text.data = false) := by
  have hshape := update_price_success_shape cfg env st mid resp body btc eth sol usdt
    hmid hz hm hs hj hq
  refine ⟨by rw [hshape], fun t' => update_price_time_invariant cfg env t' st, ?_⟩
  intro text htext
  rw [hshape] at htext
  simp at htext
  rw [htext]
  by_contra hocc
  rw [Bool.not_eq_false] at hocc
  exact dash_not_mem_formatMessage btc eth sol _ h1 h2 h3 h4
    (occursIn_subset hocc '-' (dash_mem_strftime env.nowTehran))

theorem timestamp_computed_but_unused_witness :
    (update_price cfg0 envOkFall st1).computedTime = some (strftimeYmdHMS envOkFall.nowTehran)
    ∧ (∀ t', (update_price cfg0 {envOkFall with nowTehran := t'} st1).effects
          = (update_price cfg0 envOkFall st1).effects)
    ∧ (∀ text, Effect.editMessage cfg0.channelId 1 text ∈ (update_price cfg0 envOkFall st1).effects →
        occursIn (strftimeYmdHMS envOkFall.nowTehran).data text.data = false) :=
  timestamp_computed_but_unused cfg0 envOkFall st1 1 ⟨200, some body0⟩ body0 65000 3200 150 1
    rfl (by decide) rfl rfl rfl rfl (by decide) (by decide) (by decide) (by decide)

theorem fetchER_not_mem_attempt (cfg : Config) (env : UpdateEnv) (mid : ℤ) :
    Effect.fetchExchangeRates ∉ (update_price_attempt cfg env mid).effects := by
  cases hm : env.market with
  | error e => simp [update_price_attempt, hm]
  | ok resp =>
    by_cases hs : resp.status = 200
    · cases hj : resp.json with
      | none => simp [update_price_attempt, hm, hs, hj]
      | some body =>
        cases hq : parseQuotes body with
        | error e => simp [update_price_attempt, hm, hs, hj, hq]
        | ok q =>
          obtain ⟨b, e2, s2, u⟩ := q
          cases he : env.editResult with
          | ok u2 => simp [update_price_attempt, hm, hs, hj, hq, he]
          | error e3 => simp [update_price_attempt, hm, hs, hj, hq, he]
    · simp [update_price_attempt, hm, hs]

theorem fetchER_not_mem_tick (cfg : Config) (env : UpdateEnv) (st : BotState) :
    Effect.fetchExchangeRates ∉ (update_price cfg env st).effects := by
  cases hmid : st.message_id with
  | none => simp [update_price, hmid]
  | some mid =>
    by_cases hz : mid = 0
    · simp [update_price, hmid, hz]
    · simpa [update_price, hmid, hz] using fetchER_not_mem_attempt cfg env mid

theorem fetchER_not_mem_start (cfg : Config) (env : StartEnv) (st : BotState) :
    Effect.fetchExchangeRates ∉ (start cfg env st).effects := by
  cases hc : env.chat with
  | error e => simp [start, hc]
  | ok u =>
    cases hsend : env.send with
    | error e => simp [start, hc, hsend]
    | ok mid =>
      simp only [start, hc, hsend, List.mem_append, List.mem_cons]
      intro h
      rcases h with (h | h | h | h) | h
      · exact Effect.noConfusion h
      · exact Effect.noConfusion h
      · exact Effect.noConfusion h
      · exact absurd h (List.not_mem_nil _)
      · exact fetchER_not_mem_tick cfg env.upd ⟨some mid⟩ h

/-- C7 counterexample: no reachable execution path of the program — neither
the registered `start` command handler nor the timer callback — ever issues
the exchange-rates GET of `get_exchange_rate`. -/
theorem exchange_fetch_reachable_refuted :
    ¬ ∃ (cfg : Config) (h : Handler) (env : StartEnv) (st : BotState),
        Effect.fetchExchangeRates ∈ handlerEffects cfg h env st := by
  rintro ⟨cfg, h, env, st, hmem⟩
  cases h with
  | startCommand => exact fetchER_not_mem_start cfg env st hmem
  | timerTick => exact fetchER_not_mem_tick cfg env.upd st hmem

/-- C7 (amended): `get_exchange_rate` exists and, when called, issues
exactly the exchange-rates GET (consuming rates→usd→value), but it is dead
code: no reachable execution path — the registered `start` handler or the
timer's `update_price` callback — ever invokes it. -/
theorem exchange_fetch_dead_code :
    (∀ er, (get_exchange_rate er).2 = [Effect.fetchExchangeRates])
    ∧ ∀ (cfg : Config) (h : Handler) (env : StartEnv) (st : BotState),
        Effect.fetchExchangeRates ∉ handlerEffects cfg h env st := by
  refine ⟨fun er => rfl, ?_⟩
  intro cfg h env st hmem
  cases h with
  | startCommand => exact fetchER_not_mem_start cfg env st hmem
  | timerTick => exact fetchER_not_mem_tick cfg env.upd st hmem
